import Mathlib

/-!
# Verification of the sentiment-classifier orchestration code (`src/sa.py`)

Shallow embedding of the pure/orchestration parts of the `SA` class:
vocabulary construction (`init_word_index`), token encoding
(`encode_review`), label encoding (`encode_sentiment`), fixed-length
padding (the `pad_sequences(..., padding='post', maxlen=500)` call,
keras default `truncating='pre'`), threshold classification
(`which_sentiment`), checkpoint auto-naming (the directory scan in
`train_model`), model loading (`load_saved_model`) and batch prediction
(`predict_from_file`).

External collaborators (the keras tokenizer `text_to_word_sequence` and
the trained model's forward pass) are abstracted as function parameters;
machine floats are modelled as rationals.
-/

namespace SA

/-- A Python `dict` from token strings to integer indices, modelled as an
insertion list: the most recent insertion for a key is found first. -/
def Dict : Type := List (String × Nat)

/-- `d[k] = v` assignment: prepend, so the new binding shadows older ones. -/
def dictInsert (m : Dict) (k : String) (v : Nat) : Dict := (k, v) :: m

/-- `d.get(k)` / `d[k]`-style lookup: first (most recent) binding wins. -/
def dictGet? (m : Dict) (k : String) : Option Nat :=
  match m with
  | [] => none
  | (k', v) :: rest => if k' = k then some v else dictGet? rest k

/-- `dict(zip(ws, is))`: insert the pairs left to right, a later duplicate
key overwriting an earlier one. -/
def dictFromPairs (ps : List (String × Nat)) : Dict :=
  ps.foldl (fun m p => dictInsert m p.1 p.2) []

/-- `SA.init_word_index`: build the word→index dict from the CSV rows
(columns `Words`, `Indexes`), then assign the four reserved entries,
overwriting any colliding CSV entries.  The source writes the start token
as `"<START"` (no closing bracket). -/
def init_word_index (csv : List (String × Nat)) : Dict :=
  let wi := dictFromPairs csv
  let wi := dictInsert wi "<PAD>" 0
  let wi := dictInsert wi "<START" 1
  let wi := dictInsert wi "<UNK>" 2
  dictInsert wi "<UNUSED>" 3

/-- One token of `SA.encode_review`'s list comprehension:
`self.word_index[word] if word in self.word_index else 0`. -/
def encode_token (wi : Dict) (w : String) : Nat :=
  match dictGet? wi w with
  | some n => n
  | none => 0

/-- `SA.encode_review`: join the word list with spaces, run the keras
tokenizer (abstracted as `tokenize`), and map every token through the
vocabulary, unknown tokens going to 0. -/
def encode_review (tokenize : String → List String) (wi : Dict)
    (review : List String) : List Nat :=
  (tokenize (String.intercalate " " review)).map (encode_token wi)

/-- Python's `str.lower()` (ASCII fragment): lower-case every character.
Python strings are sequences of code points, so the string operations of
the source are translated on the character list. -/
def pyLower (s : String) : String := ⟨s.data.map Char.toLower⟩

/-- Python's `s.startswith(pre)`. -/
def pyStartsWith (s pre : String) : Bool := pre.data.isPrefixOf s.data

/-- Python's `s.endswith(post)`. -/
def pyEndsWith (s post : String) : Bool := post.data.isSuffixOf s.data

/-- Python's slice `s[n:]`: drop the first `n` code points. -/
def pyDrop (n : Nat) (s : String) : String := ⟨s.data.drop n⟩

/-- The numeric value of a decimal digit character, `none` otherwise. -/
def digitVal? (c : Char) : Option Nat :=
  if 48 ≤ c.toNat ∧ c.toNat ≤ 57 then some (c.toNat - 48) else none

/-- Python's `int(s)` on the digit-string fragment the checkpoint names
use: `none` (a raised `ValueError`) on the empty string or any
non-digit character. -/
def pyInt? (s : String) : Option Nat :=
  match s.data with
  | [] => none
  | cs => cs.foldlM (fun acc c => (digitVal? c).map (fun d => acc * 10 + d)) 0

/-- `SA.encode_sentiment`: `1` if `x.lower() == 'positive'`, else `0`. -/
def encode_sentiment (x : String) : Nat :=
  if pyLower x = "positive" then 1 else 0

/-- `keras.preprocessing.sequence.pad_sequences` on one row, as called in
`preprocess_data` and `predict`: `padding='post'` (pad at the end with
`value`), default `truncating='pre'` (a too-long row keeps its last
`maxlen` elements). -/
def pad_sequences_post (maxlen : Nat) (value : Nat) (seq : List Nat) : List Nat :=
  let t := if maxlen < seq.length then seq.drop (seq.length - maxlen) else seq
  t ++ List.replicate (maxlen - t.length) value

/-- `SA.which_sentiment`: two-threshold band classification of a
probability. -/
def which_sentiment (positive_cap neutral_cap : ℚ) (prob : ℚ) : String :=
  if positive_cap ≤ prob then "Positive review"
  else if neutral_cap ≤ prob then "Neutral review"
  else "Negative review"

/-- Helper for `pySplit`: walk the characters, `acc` holding the current
word reversed; whitespace closes a word, empty runs produce nothing. -/
def pySplitAux : List Char → List Char → List String
  | [], [] => []
  | [], acc => [⟨acc.reverse⟩]
  | c :: cs, acc =>
    if c.isWhitespace then
      match acc with
      | [] => pySplitAux cs []
      | _ => ⟨acc.reverse⟩ :: pySplitAux cs []
    else pySplitAux cs (c :: acc)

/-- `review.split()`: split on whitespace runs, dropping empty pieces. -/
def pySplit (s : String) : List String := pySplitAux s.data []

/-- Python's `j.replace("\n", "")`: remove every newline character. -/
def pyStripNewlines (j : String) : String :=
  ⟨j.data.filter (fun c => c ≠ Char.ofNat 10)⟩

/-- `SA.predict`: split the review, encode it, pad to length 500 with the
`<PAD>` index, run the model's forward pass (abstracted as `model`), and
classify the resulting probability. -/
def predict (tokenize : String → List String) (model : List Nat → ℚ)
    (wi : Dict) (positive_cap neutral_cap : ℚ) (review : String) : ℚ × String :=
  let encoded := encode_review tokenize wi (pySplit review)
  let padded := pad_sequences_post 500 (encode_token wi "<PAD>") encoded
  let prob := model padded
  (prob, which_sentiment positive_cap neutral_cap prob)

/-- The checkpoint auto-naming scan in `SA.train_model`: fold `curr_idx`
over the directory listing, starting at 0; a file starting with
`"my_model"` contributes `idx = int(i[9:])` and updates
`curr_idx = idx + 1 if curr_idx <= idx else curr_idx`; a suffix that does
not parse as a number aborts (Python `int` raises there).  The final
`curr_idx` is the `N` of the generated name `my_model_N`. -/
def next_model_index (files : List String) : Option Nat :=
  files.foldlM
    (fun curr i =>
      if pyStartsWith i "my_model" then
        match pyInt? (pyDrop 9 i) with
        | some idx => some (if curr ≤ idx then idx + 1 else curr)
        | none => none
      else some curr)
    0

/-- The numeric suffixes contributed by the `"my_model"`-prefixed entries
of a directory listing. -/
def model_suffixes (files : List String) : List Nat :=
  files.filterMap (fun i => if pyStartsWith i "my_model" then pyInt? (pyDrop 9 i) else none)

/-- One row of the batch-prediction result: review text, probability,
sentiment label. -/
abbrev Record : Type := String × ℚ × String

/-- The accumulation loop of `predict_from_file`: starting from the dummy
row that the `sentiment_collection[1:]` slice removes again, append one
`[review, prob, sentiment]` row per review, in order. -/
def collect (f : String → ℚ × String) (data : List String) : List Record :=
  data.foldl (fun acc i => acc ++ [(i, (f i).1, (f i).2)]) []

/-- The single-quote character of the Python error f-string. -/
def pyQuote : String := String.singleton (Char.ofNat 39)

/-- `SA.predict_from_file`: dispatch on the file extension.  A `.csv` path
predicts every entry of the `Reviews` column; a `.txt` path predicts every
line of `f.readlines()` with its newline characters removed; any other
path raises the invalid-format error.  `rows` stands for the file content
the branch reads: the `Reviews` column for `.csv`, the raw lines for
`.txt`. -/
def predict_from_file (tokenize : String → List String) (model : List Nat → ℚ)
    (wi : Dict) (positive_cap neutral_cap : ℚ)
    (file_path : String) (rows : List String) : Except String (List Record) :=
  if pyEndsWith file_path ".csv" then
    .ok (collect (predict tokenize model wi positive_cap neutral_cap) rows)
  else if pyEndsWith file_path ".txt" then
    .ok (collect (predict tokenize model wi positive_cap neutral_cap)
      (rows.map pyStripNewlines))
  else
    .error ("Invalid file format " ++ pyQuote ++ file_path ++ pyQuote)

/-- Severity levels of the logger calls in `sa.py`. -/
inductive LogLevel
  | info
  | fatal
deriving DecidableEq

/-- The mutable fields of the `SA` object that `load_saved_model`
touches: `self.model`, `self.loss`, `self.accuracy` (each possibly not
yet set). -/
structure SAState where
  model : Option (List Nat → ℚ)
  loss : Option ℚ
  accuracy : Option ℚ

/-- `SA.load_saved_model`: attempt `keras.models.load_model(load_path)`
(outcome abstracted as `loadResult`); on failure, log the error at fatal
severity and re-raise that same error, leaving every field as it was; on
success, install the model and store the loss and accuracy returned by the
framework's `model.evaluate` (abstracted as `evalResult`). -/
def load_saved_model (st : SAState)
    (loadResult : Except String (List Nat → ℚ))
    (evalResult : (List Nat → ℚ) → ℚ × ℚ) :
    SAState × List (LogLevel × String) × Except String Unit :=
  match loadResult with
  | .error e => (st, [(LogLevel.fatal, e)], Except.error e)
  | .ok m =>
    ({ model := some m, loss := some (evalResult m).1, accuracy := some (evalResult m).2 },
      [], Except.ok ())

end SA

/-- C1: `which_sentiment` sorts a probability into three bands, both lower
bands inclusive at their lower bound: `"Positive review"` iff
`p ≥ positive_cap`, `"Neutral review"` iff `neutral_cap ≤ p < positive_cap`,
`"Negative review"` iff `p < neutral_cap`; with caps 0.6/0.4 the
probabilities 0.75, 0.5, 0.1 and the boundaries 0.6, 0.4 land as the spec
states. -/
theorem which_sentiment_bands (positive_cap neutral_cap p : ℚ)
    (h : neutral_cap < positive_cap) :
    (SA.which_sentiment positive_cap neutral_cap p = "Positive review" ↔ positive_cap ≤ p) ∧
    (SA.which_sentiment positive_cap neutral_cap p = "Neutral review" ↔
      neutral_cap ≤ p ∧ p < positive_cap) ∧
    (SA.which_sentiment positive_cap neutral_cap p = "Negative review" ↔ p < neutral_cap) ∧
    SA.which_sentiment (6/10) (4/10) (75/100) = "Positive review" ∧
    SA.which_sentiment (6/10) (4/10) (5/10) = "Neutral review" ∧
    SA.which_sentiment (6/10) (4/10) (1/10) = "Negative review" ∧
    SA.which_sentiment (6/10) (4/10) (6/10) = "Positive review" ∧
    SA.which_sentiment (6/10) (4/10) (4/10) = "Neutral review" := by
  unfold SA.which_sentiment
  refine ⟨?_, ?_, ?_, by norm_num, by norm_num, by norm_num, by norm_num, by norm_num⟩
  · by_cases hp : positive_cap ≤ p
    · rw [if_pos hp]; exact iff_of_true rfl hp
    · rw [if_neg hp]
      by_cases hn : neutral_cap ≤ p
      · rw [if_pos hn]; exact iff_of_false (by decide) hp
      · rw [if_neg hn]; exact iff_of_false (by decide) hp
  · by_cases hp : positive_cap ≤ p
    · rw [if_pos hp]
      exact iff_of_false (by decide) (fun hc => absurd hp (not_le.mpr hc.2))
    · rw [if_neg hp]
      by_cases hn : neutral_cap ≤ p
      · rw [if_pos hn]; exact iff_of_true rfl ⟨hn, not_le.mp hp⟩
      · rw [if_neg hn]; exact iff_of_false (by decide) (fun hc => absurd hc.1 hn)
  · by_cases hp : positive_cap ≤ p
    · rw [if_pos hp]
      exact iff_of_false (by decide) (not_lt.mpr (le_of_lt (lt_of_lt_of_le h hp)))
    · rw [if_neg hp]
      by_cases hn : neutral_cap ≤ p
      · rw [if_pos hn]; exact iff_of_false (by decide) (not_lt.mpr hn)
      · rw [if_neg hn]; exact iff_of_true rfl (not_le.mp hn)

/-- Witness for C1 at caps 0.6/0.4 and p = 0.75. -/
theorem which_sentiment_bands_witness :
    (4/10 : ℚ) < 6/10 ∧
    (SA.which_sentiment (6/10) (4/10) (75/100) = "Positive review" ↔ (6/10 : ℚ) ≤ 75/100) := by
  exact ⟨by norm_num, (which_sentiment_bands (6/10) (4/10) (75/100) (by norm_num)).1⟩

/-- Unfolding lemma: lookup on a non-empty dict checks the head binding
first. -/
theorem dictGet?_cons (k' : String) (v : Nat) (m : SA.Dict) (k : String) :
    SA.dictGet? ((k', v) :: m) k = if k' = k then some v else SA.dictGet? m k := rfl

/-- C6: `encode_sentiment` returns 1 exactly for the strings that equal
`"positive"` under case-insensitive comparison (character-wise lower-casing)
and 0 for every other string; in particular `"Positive"`, `"POSITIVE"`,
`"positive"` give 1 and `"negative"`, `""` give 0. -/
theorem encode_sentiment_case_insensitive :
    (∀ s : String, SA.encode_sentiment s = 1 ↔
      s.data.map Char.toLower = "positive".data.map Char.toLower) ∧
    (∀ s : String, SA.encode_sentiment s = 0 ↔
      ¬ s.data.map Char.toLower = "positive".data.map Char.toLower) ∧
    SA.encode_sentiment "Positive" = 1 ∧
    SA.encode_sentiment "POSITIVE" = 1 ∧
    SA.encode_sentiment "positive" = 1 ∧
    SA.encode_sentiment "negative" = 0 ∧
    SA.encode_sentiment "" = 0 := by
  have hlow : ∀ s : String, SA.pyLower s = "positive" ↔
      s.data.map Char.toLower = "positive".data.map Char.toLower := by
    intro s
    have hpos : ("positive" : String).data.map Char.toLower = "positive".data := by decide
    rw [hpos]
    constructor
    · intro hs
      have : (SA.pyLower s).data = ("positive" : String).data := by rw [hs]
      simpa [SA.pyLower] using this
    · intro hs
      unfold SA.pyLower
      exact congrArg String.mk hs
  refine ⟨?_, ?_, by decide, by decide, by decide, by decide, by decide⟩
  · intro s
    rw [← hlow s]
    unfold SA.encode_sentiment
    by_cases hc : SA.pyLower s = "positive"
    · rw [if_pos hc]; exact iff_of_true rfl hc
    · rw [if_neg hc]; exact iff_of_false (by decide) hc
  · intro s
    rw [← hlow s]
    unfold SA.encode_sentiment
    by_cases hc : SA.pyLower s = "positive"
    · rw [if_pos hc]; exact iff_of_false (by decide) (fun hn => hn hc)
    · rw [if_neg hc]; exact iff_of_true rfl hc

/-- C7: after `init_word_index`, the reserved tokens map to 0, 1, 2, 3
(the source spells the start token `"<START"`), for every CSV content —
so any colliding CSV entry is overwritten — and every non-reserved token
looks up exactly as in the dict built from the CSV alone. -/
theorem init_word_index_reserved (csv : List (String × Nat)) (w : String) :
    SA.dictGet? (SA.init_word_index csv) "<PAD>" = some 0 ∧
    SA.dictGet? (SA.init_word_index csv) "<START" = some 1 ∧
    SA.dictGet? (SA.init_word_index csv) "<UNK>" = some 2 ∧
    SA.dictGet? (SA.init_word_index csv) "<UNUSED>" = some 3 ∧
    (w ≠ "<PAD>" → w ≠ "<START" → w ≠ "<UNK>" → w ≠ "<UNUSED>" →
      SA.dictGet? (SA.init_word_index csv) w = SA.dictGet? (SA.dictFromPairs csv) w) := by
  refine ⟨rfl, rfl, rfl, rfl, ?_⟩
  intro h1 h2 h3 h4
  show SA.dictGet? (("<UNUSED>", 3) :: ("<UNK>", 2) :: ("<START", 1) :: ("<PAD>", 0) ::
    SA.dictFromPairs csv) w = SA.dictGet? (SA.dictFromPairs csv) w
  rw [dictGet?_cons, if_neg (fun hh => h4 hh.symm),
    dictGet?_cons, if_neg (fun hh => h3 hh.symm),
    dictGet?_cons, if_neg (fun hh => h2 hh.symm),
    dictGet?_cons, if_neg (fun hh => h1 hh.symm)]

/-- Witness for C7: a CSV entry colliding with `"<PAD>"` is overwritten,
and the non-reserved entry `"good"` still resolves from the CSV. -/
theorem init_word_index_reserved_witness :
    SA.dictGet? (SA.init_word_index [("<PAD>", 99), ("good", 49)]) "<PAD>" = some 0 ∧
    SA.dictGet? (SA.init_word_index [("<PAD>", 99), ("good", 49)]) "good" =
      SA.dictGet? (SA.dictFromPairs [("<PAD>", 99), ("good", 49)]) "good" := by
  exact ⟨(init_word_index_reserved [("<PAD>", 99), ("good", 49)] "good").1,
    (init_word_index_reserved [("<PAD>", 99), ("good", 49)] "good").2.2.2.2
      (by decide) (by decide) (by decide) (by decide)⟩

/-- C3: in the vocabulary built by `init_word_index`, a token that is
absent encodes to index 0, which is exactly the index stored for the
`"<PAD>"` token, and a token that is present encodes to its stored
index. -/
theorem encode_token_unknown_is_pad (csv : List (String × Nat)) (tok : String) :
    (SA.dictGet? (SA.init_word_index csv) tok = none →
      SA.encode_token (SA.init_word_index csv) tok = 0) ∧
    (∀ n, SA.dictGet? (SA.init_word_index csv) tok = some n →
      SA.encode_token (SA.init_word_index csv) tok = n) ∧
    SA.dictGet? (SA.init_word_index csv) "<PAD>" = some 0 ∧
    SA.encode_token (SA.init_word_index csv) "<PAD>" = 0 := by
  refine ⟨?_, ?_, rfl, rfl⟩
  · intro h; unfold SA.encode_token; rw [h]
  · intro n h; unfold SA.encode_token; rw [h]

/-- Witness for C3: with a one-word CSV, the unseen token `"zzz"` encodes
to 0 (the PAD index) and the known token `"good"` to its index 49. -/
theorem encode_token_unknown_is_pad_witness :
    SA.encode_token (SA.init_word_index [("good", 49)]) "zzz" = 0 ∧
    SA.encode_token (SA.init_word_index [("good", 49)]) "good" = 49 := by
  exact ⟨(encode_token_unknown_is_pad [("good", 49)] "zzz").1 rfl,
    (encode_token_unknown_is_pad [("good", 49)] "good").2.1 49 rfl⟩

/-- C5: padding a sequence to maxlen 500 (`padding='post'`) always yields
length exactly 500; a sequence of length ≤ 500 is returned with the pad
value appended at the end, a longer one is truncated (keras default
`truncating='pre'`: its last 500 elements are kept). -/
theorem pad_sequences_500 (value : Nat) (seq : List Nat) :
    (SA.pad_sequences_post 500 value seq).length = 500 ∧
    (seq.length ≤ 500 →
      SA.pad_sequences_post 500 value seq = seq ++ List.replicate (500 - seq.length) value) ∧
    (500 < seq.length →
      SA.pad_sequences_post 500 value seq = seq.drop (seq.length - 500)) := by
  simp only [SA.pad_sequences_post]
  by_cases hl : 500 < seq.length
  · rw [if_pos hl]
    have hdl : (seq.drop (seq.length - 500)).length = 500 := by
      rw [List.length_drop]; omega
    refine ⟨?_, ?_, ?_⟩
    · rw [List.length_append, hdl, List.length_replicate]
    · intro hle; exact absurd hle (not_le.mpr hl)
    · intro _; rw [hdl]; simp
  · rw [if_neg hl]
    refine ⟨?_, ?_, ?_⟩
    · rw [List.length_append, List.length_replicate]; omega
    · intro _; rfl
    · intro hgt; exact absurd hgt hl

/-- Witness for C5: a 2-element sequence padded to 500 is itself plus 498
copies of the pad value. -/
theorem pad_sequences_500_witness :
    SA.pad_sequences_post 500 0 [7, 8] = [7, 8] ++ List.replicate 498 0 :=
  (pad_sequences_500 0 [7, 8]).2.1 (by decide)

/-- C2 counterexample: with existing checkpoints `my_model_0`,
`my_model_1`, `my_model_3`, the directory scan of `train_model` does not
generate the lowest unused suffix 2. -/
theorem next_model_index_not_lowest_unused :
    SA.next_model_index ["my_model_0", "my_model_1", "my_model_3"] ≠ some 2 := by
  decide

/-- The auto-naming fold with a generalized accumulator: when every
`"my_model"`-prefixed entry has a numeric suffix the scan succeeds, and
its value is at least the start value, exceeds every suffix, and is
either the start value or one more than some suffix. -/
theorem next_model_fold_spec (files : List String)
    (h : ∀ i ∈ files, SA.pyStartsWith i "my_model" = true →
      (SA.pyInt? (SA.pyDrop 9 i)).isSome = true) :
    ∀ acc : Nat, ∃ n : Nat,
      List.foldlM
        (fun curr i =>
          if SA.pyStartsWith i "my_model" then
            match SA.pyInt? (SA.pyDrop 9 i) with
            | some idx => some (if curr ≤ idx then idx + 1 else curr)
            | none => none
          else some curr)
        acc files = some n ∧
      acc ≤ n ∧
      (∀ k ∈ SA.model_suffixes files, k < n) ∧
      (n = acc ∨ ∃ k ∈ SA.model_suffixes files, n = k + 1) := by
  induction files with
  | nil =>
    intro acc
    exact ⟨acc, rfl, le_refl acc, by simp [SA.model_suffixes], Or.inl rfl⟩
  | cons i is ih =>
    intro acc
    have htail : ∀ j ∈ is, SA.pyStartsWith j "my_model" = true →
        (SA.pyInt? (SA.pyDrop 9 j)).isSome = true :=
      fun j hj => h j (List.mem_cons_of_mem i hj)
    by_cases hs : SA.pyStartsWith i "my_model" = true
    · obtain ⟨idx, hidx⟩ :=
        Option.isSome_iff_exists.mp (h i (List.mem_cons_self i is) hs)
      obtain ⟨n, hfold, hle, hbound, hforms⟩ :=
        ih htail (if acc ≤ idx then idx + 1 else acc)
      have hsuf : SA.model_suffixes (i :: is) = idx :: SA.model_suffixes is := by
        simp [SA.model_suffixes, List.filterMap_cons, hs, hidx]
      have hacc : acc ≤ (if acc ≤ idx then idx + 1 else acc) := by
        by_cases hai : acc ≤ idx
        · rw [if_pos hai]; omega
        · rw [if_neg hai]
      have hidxlt : idx < (if acc ≤ idx then idx + 1 else acc) := by
        by_cases hai : acc ≤ idx
        · rw [if_pos hai]; omega
        · rw [if_neg hai]; omega
      refine ⟨n, ?_, le_trans hacc hle, ?_, ?_⟩
      · rw [List.foldlM_cons]
        simp only [hs, if_true, hidx]
        exact hfold
      · rw [hsuf]
        intro k hk
        rcases List.mem_cons.mp hk with hk | hk
        · subst hk; exact lt_of_lt_of_le hidxlt hle
        · exact hbound k hk
      · rcases hforms with hform | ⟨k, hk, hform⟩
        · by_cases hai : acc ≤ idx
          · right
            refine ⟨idx, by rw [hsuf]; exact List.mem_cons_self idx _, ?_⟩
            rw [hform, if_pos hai]
          · left
            rw [hform, if_neg hai]
        · right
          exact ⟨k, by rw [hsuf]; exact List.mem_cons_of_mem idx hk, hform⟩
    · obtain ⟨n, hfold, hle, hbound, hforms⟩ := ih htail acc
      have hsuf : SA.model_suffixes (i :: is) = SA.model_suffixes is := by
        simp [SA.model_suffixes, List.filterMap_cons, hs]
      refine ⟨n, ?_, hle, by rw [hsuf]; exact hbound, ?_⟩
      · rw [List.foldlM_cons]
        simp only [Bool.not_eq_true] at hs
        simp only [hs, if_false]
        exact hfold
      · rcases hforms with hform | ⟨k, hk, hform⟩
        · exact Or.inl hform
        · exact Or.inr ⟨k, by rw [hsuf]; exact hk, hform⟩

/-- C2 (amended): when every `"my_model"`-prefixed name in the directory
has a numeric suffix, the generated suffix `N` is one more than the
largest existing suffix (and 0 when there is none) — every existing
suffix is below `N` and `N` is 0 or an existing suffix plus one — not the
lowest unused suffix: for `my_model_0`, `my_model_1`, `my_model_3` the
next generated name is `my_model_4`. -/
theorem next_model_index_max_plus_one (files : List String)
    (h : ∀ i ∈ files, SA.pyStartsWith i "my_model" = true →
      (SA.pyInt? (SA.pyDrop 9 i)).isSome = true) :
    (∃ n : Nat, SA.next_model_index files = some n ∧
      (∀ k ∈ SA.model_suffixes files, k < n) ∧
      (n = 0 ∨ ∃ k ∈ SA.model_suffixes files, n = k + 1)) ∧
    SA.next_model_index ["my_model_0", "my_model_1", "my_model_3"] = some 4 := by
  refine ⟨?_, by decide⟩
  obtain ⟨n, hfold, _, hbound, hforms⟩ := next_model_fold_spec files h 0
  exact ⟨n, hfold, hbound, hforms⟩

/-- Witness for C2 (amended) on the listing `my_model_0`, `my_model_3`. -/
theorem next_model_index_max_plus_one_witness :
    (∃ n : Nat, SA.next_model_index ["my_model_0", "my_model_3"] = some n ∧
      (∀ k ∈ SA.model_suffixes ["my_model_0", "my_model_3"], k < n) ∧
      (n = 0 ∨ ∃ k ∈ SA.model_suffixes ["my_model_0", "my_model_3"], n = k + 1)) ∧
    SA.next_model_index ["my_model_0", "my_model_1", "my_model_3"] = some 4 :=
  next_model_index_max_plus_one ["my_model_0", "my_model_3"] (by decide)

/-- The accumulation loop of `predict_from_file` produces exactly the
per-row records, in order. -/
theorem collect_eq_map (f : String → ℚ × String) (data : List String) :
    SA.collect f data = data.map (fun i => (i, (f i).1, (f i).2)) := by
  have key : ∀ (l : List String) (acc : List SA.Record),
      l.foldl (fun acc i => acc ++ [(i, (f i).1, (f i).2)]) acc =
        acc ++ l.map (fun i => (i, (f i).1, (f i).2)) := by
    intro l
    induction l with
    | nil => intro acc; simp
    | cons x xs ih => intro acc; simp [ih]
  simpa [SA.collect] using key data []

/-- C4: batch prediction emits exactly one record per input row, in input
order, each holding that row's text together with the probability and
label the single-review `predict` returns for it — the rows being the
`Reviews` column for a `.csv` path and the newline-stripped lines for a
`.txt` path — so the result has exactly as many records as the file has
rows. -/
theorem predict_from_file_per_line (tokenize : String → List String)
    (model : List Nat → ℚ) (wi : SA.Dict) (pcap ncap : ℚ)
    (pathC pathT : String) (rows lines : List String)
    (hC : SA.pyEndsWith pathC ".csv" = true)
    (hT1 : SA.pyEndsWith pathT ".csv" = false)
    (hT2 : SA.pyEndsWith pathT ".txt" = true) :
    SA.predict_from_file tokenize model wi pcap ncap pathC rows =
      Except.ok (rows.map (fun i =>
        (i, (SA.predict tokenize model wi pcap ncap i).1,
          (SA.predict tokenize model wi pcap ncap i).2))) ∧
    SA.predict_from_file tokenize model wi pcap ncap pathT lines =
      Except.ok ((lines.map SA.pyStripNewlines).map (fun i =>
        (i, (SA.predict tokenize model wi pcap ncap i).1,
          (SA.predict tokenize model wi pcap ncap i).2))) ∧
    (rows.map (fun i =>
      (i, (SA.predict tokenize model wi pcap ncap i).1,
        (SA.predict tokenize model wi pcap ncap i).2))).length = rows.length ∧
    ((lines.map SA.pyStripNewlines).map (fun i =>
      (i, (SA.predict tokenize model wi pcap ncap i).1,
        (SA.predict tokenize model wi pcap ncap i).2))).length = lines.length := by
  refine ⟨?_, ?_, by simp, by simp⟩
  · simp [SA.predict_from_file, hC, collect_eq_map]
  · simp [SA.predict_from_file, hT1, hT2, collect_eq_map]

/-- Witness for C4: a 3-line text file yields exactly its 3 records, in
order, with the label the single-review predictor gives each line. -/
theorem predict_from_file_per_line_witness :
    SA.predict_from_file (fun s => [s]) (fun _ => (0 : ℚ)) (SA.init_word_index [])
      1 0 "b.txt" ["great\n", "bad", "meh\n"] =
      Except.ok [("great", 0, "Neutral review"), ("bad", 0, "Neutral review"),
        ("meh", 0, "Neutral review")] := by
  have h := (predict_from_file_per_line (fun s => [s]) (fun _ => (0 : ℚ))
    (SA.init_word_index []) 1 0 "a.csv" "b.txt" [] ["great\n", "bad", "meh\n"]
    (by decide) (by decide) (by decide)).2.1
  rw [h]
  rfl

/-- C8: for a path ending in neither `.csv` nor `.txt`, batch prediction
raises the invalid-format error naming the path, and emits no record at
all: the result is never a success value. -/
theorem predict_from_file_bad_extension (tokenize : String → List String)
    (model : List Nat → ℚ) (wi : SA.Dict) (pcap ncap : ℚ)
    (file_path : String) (rows : List String)
    (hcsv : SA.pyEndsWith file_path ".csv" = false)
    (htxt : SA.pyEndsWith file_path ".txt" = false) :
    SA.predict_from_file tokenize model wi pcap ncap file_path rows =
      Except.error ("Invalid file format " ++ SA.pyQuote ++ file_path ++ SA.pyQuote) ∧
    ∀ recs : List SA.Record,
      SA.predict_from_file tokenize model wi pcap ncap file_path rows ≠
        Except.ok recs := by
  have h : SA.predict_from_file tokenize model wi pcap ncap file_path rows =
      Except.error ("Invalid file format " ++ SA.pyQuote ++ file_path ++ SA.pyQuote) := by
    simp [SA.predict_from_file, hcsv, htxt]
  refine ⟨h, fun recs hok => ?_⟩
  rw [h] at hok
  exact Except.noConfusion hok

/-- Witness for C8 on the path `reviews.json`. -/
theorem predict_from_file_bad_extension_witness :
    SA.predict_from_file (fun s => [s]) (fun _ => (0 : ℚ)) (SA.init_word_index [])
      1 0 "reviews.json" ["a review"] =
      Except.error ("Invalid file format " ++ SA.pyQuote ++ "reviews.json" ++ SA.pyQuote) :=
  (predict_from_file_bad_extension (fun s => [s]) (fun _ => (0 : ℚ))
    (SA.init_word_index []) 1 0 "reviews.json" ["a review"]
    (by decide) (by decide)).1

/-- C9: when loading the model artifact fails, `load_saved_model` logs
exactly that error at fatal severity, re-raises the very same error, and
installs nothing: the whole object state is left as it was. -/
theorem load_saved_model_error_logged (st : SA.SAState) (e : String)
    (loadResult : Except String (List Nat → ℚ))
    (evalResult : (List Nat → ℚ) → ℚ × ℚ)
    (h : loadResult = Except.error e) :
    (SA.load_saved_model st loadResult evalResult).2.1 = [(SA.LogLevel.fatal, e)] ∧
    (SA.load_saved_model st loadResult evalResult).2.2 = Except.error e ∧
    (SA.load_saved_model st loadResult evalResult).1 = st := by
  subst h
  exact ⟨rfl, rfl, rfl⟩

/-- Witness for C9: a failed load with message `boom` from a fresh state. -/
theorem load_saved_model_error_logged_witness :
    (SA.load_saved_model ⟨none, none, none⟩ (Except.error "boom")
      (fun _ => (0, 0))).2.1 = [(SA.LogLevel.fatal, "boom")] ∧
    (SA.load_saved_model ⟨none, none, none⟩ (Except.error "boom")
      (fun _ => (0, 0))).2.2 = Except.error "boom" ∧
    (SA.load_saved_model ⟨none, none, none⟩ (Except.error "boom")
      (fun _ => (0, 0))).1 = ⟨none, none, none⟩ :=
  load_saved_model_error_logged ⟨none, none, none⟩ "boom" (Except.error "boom")
    (fun _ => (0, 0)) rfl

/-- C10: on the error path of `load_saved_model`, the `model`, `loss` and
`accuracy` fields each keep exactly the value they held before the call. -/
theorem load_saved_model_error_atomic (st : SA.SAState) (e : String)
    (loadResult : Except String (List Nat → ℚ))
    (evalResult : (List Nat → ℚ) → ℚ × ℚ)
    (h : loadResult = Except.error e) :
    ((SA.load_saved_model st loadResult evalResult).1).model = st.model ∧
    ((SA.load_saved_model st loadResult evalResult).1).loss = st.loss ∧
    ((SA.load_saved_model st loadResult evalResult).1).accuracy = st.accuracy := by
  subst h
  exact ⟨rfl, rfl, rfl⟩

/-- Witness for C10: a failed load leaves a previously-populated state
(a model with loss 1/10 and accuracy 9/10) untouched. -/
theorem load_saved_model_error_atomic_witness :
    ((SA.load_saved_model ⟨some (fun _ => 1), some (1/10), some (9/10)⟩
      (Except.error "no such path") (fun _ => (0, 0))).1).model =
        (SA.SAState.mk (some (fun _ => 1)) (some (1/10)) (some (9/10))).model ∧
    ((SA.load_saved_model ⟨some (fun _ => 1), some (1/10), some (9/10)⟩
      (Except.error "no such path") (fun _ => (0, 0))).1).loss = some (1/10) ∧
    ((SA.load_saved_model ⟨some (fun _ => 1), some (1/10), some (9/10)⟩
      (Except.error "no such path") (fun _ => (0, 0))).1).accuracy = some (9/10) :=
  load_saved_model_error_atomic ⟨some (fun _ => 1), some (1/10), some (9/10)⟩
    "no such path" (Except.error "no such path") (fun _ => (0, 0)) rfl
